import Mathlib

/-!
Shallow embedding of `src/sharktuner/boo_tuner.py` (`main`).

The script is orchestration glue around two opaque collaborators (the BOO
kernel compiler and the model tuner).  We embed it as a pure interpreter:

* Pure Python values (argparse results, string lists, flag construction)
  become Lean values and functions translated line by line from the source.
* External effects are supplied by a `ConfigWorld` oracle per configuration:
  what `os.listdir` returns for the cache directory, the single op
  subdirectory, and the bench directory; the contents of the discovered
  `compile_command*` file; the ignored exit status of the re-compile
  subprocess; the name `tempfile.mkdtemp` picks; and which bench artifacts
  make `tuner_main` raise.
* The filesystem operations the script performs itself
  (`shutil.rmtree`, `os.mkdir`, implicit writes into the workspace) act on
  a small association-list filesystem `Fs` mapping directory paths to their
  entry lists.  `os.listdir` of a missing directory raises
  `FileNotFoundError`; `os.mkdir` of an existing path raises
  `FileExistsError`; `shutil.rmtree(..., ignore_errors=True)` removes the
  tree unconditionally.  `tempfile.mkdtemp` is assumed to pick a fresh name
  (its documented contract); theorems that need this carry the freshness as
  a hypothesis.
* `shlex.split` (Python stdlib) is an opaque collaborator: the interpreter
  is parameterised over it.  Concrete instantiations in witnesses use a
  plain whitespace splitter `split0`, which agrees with `shlex.split` on
  the quote-free inputs used there.

The interpreter records, per configuration, a `ConfigTrace`: the workspace
name, the workspace listing immediately before the compiler invocation, the
argv of the re-compile subprocess, every tuner invocation (its argv and
whether it raised — a raised invocation corresponds to the
`traceback.print_exception` call in the source), the uncaught error that
aborted the configuration (if any), the carried starter spec afterwards and
whether the end-of-configuration `shutil.rmtree` ran.
-/

namespace BooTuner

abbrev DirPath := String

/-- The argparse result of `main`'s own parser (`boo_tuner.py` lines 28-37),
with the source's defaults.  `commands_file` is modelled by the separate
`Option (List String)` of file lines handed to `mainRun`.  `num_candidates`
is `type=int`, `tmp_dir` is a string defaulting to `""` (Python truthiness:
the pinned-path branch is taken iff it is nonempty). -/
structure Args where
  output_td_spec : DirPath := "tuning-spec.mlir"
  starter_td_spec : Option DirPath := none
  num_candidates : Int := 100
  devices : String := "hip://0"
  tmp_dir : String := ""
deriving DecidableEq, Repr

/-- Python `str` on a `Path | None` value (`str(starter_td_spec)`). -/
def pyStr : Option DirPath → String
  | some p => p
  | none => "None"

/-- Whether the first character list is an initial segment of the second. -/
def beginsWith : List Char → List Char → Bool
  | [], _ => true
  | _ :: _, [] => false
  | c :: cs, d :: ds => c = d && beginsWith cs ds

/-- Python `s.startswith(pre)`. -/
def pyStartswith (s pre : String) : Bool :=
  beginsWith pre.toList s.toList

/-- The ASCII whitespace characters Python's `str.strip()` removes. -/
def isSpaceChar (c : Char) : Bool :=
  c = ' ' || c = '\t' || c = '\n' || c = '\r' || c = '\x0b' || c = '\x0c'

/-- Python `str.strip()` (no argument): remove leading and trailing
whitespace, as applied to the recovered compile command (line 75). -/
def pyStrip (s : String) : String :=
  String.mk (((s.toList.dropWhile isSpaceChar).reverse.dropWhile isSpaceChar).reverse)

/-- `boo_tuner.py` lines 39-45: with a commands file,
`[shlex.split(s) for s in f.readlines() if not s.startswith("#")]`;
without one, `[[]]` (use CLI arguments). -/
def mio_file_args (shlexSplit : String → List String) :
    Option (List String) → List (List String)
  | some lines => (lines.filter (fun s => !(pyStartswith s "#"))).map shlexSplit
  | none => [[]]

/-- Association-list filesystem: directory path to its entry listing. -/
abbrev Fs := List (DirPath × List String)

/-- `os.listdir p` when it succeeds, `none` when the directory is absent
(first binding wins). -/
def fsLookup (fs : Fs) (p : DirPath) : Option (List String) :=
  (fs.find? (fun e => e.1 == p)).map (fun e => e.2)

/-- `shutil.rmtree(p, ignore_errors=True)`: removes the directory and
everything below it; a missing path is not an error. -/
def rmtree (fs : Fs) (p : DirPath) : Fs :=
  fs.filter (fun e => !(e.1 == p || pyStartswith e.1 (p ++ "/")))

/-- `os.mkdir p`: creates an empty directory, raising `FileExistsError`
(modelled as `none`) when the path already exists. -/
def mkdir (fs : Fs) (p : DirPath) : Option Fs :=
  if (fsLookup fs p).isSome then none else some ((p, []) :: fs)

/-- The external collaborators (compiler, tuner) writing contents into the
workspace directory during a configuration's processing. -/
def setDir (fs : Fs) (p : DirPath) (es : List String) : Fs :=
  (p, es) :: fs

/-- One call of `tuner_main` as the trace records it: the bench artifact
path, the exact argv handed to the tuner, and whether the call raised (in
which case the source prints the full traceback and continues). -/
structure TunerInvocation where
  benchPath : String
  argv : List String
  raised : Bool
deriving DecidableEq, Repr

/-- `boo_tuner.py` lines 95-109: the argument list built for `tuner_main`.
The starter pair is included iff `args.starter_td_spec is not None` — the
guard tests the original CLI value, not the carried `starter_td_spec`
variable, so the carried value `starter` is only ever visible to the tuner
when a global starter was supplied. -/
def tuner_args (args : Args) (starter : Option DirPath) (bench_path : String) :
    List String :=
  ["model-unused", bench_path]
    ++ (if args.starter_td_spec.isSome then ["--starter-td-spec", pyStr starter] else [])
    ++ ["--output-td-spec", args.output_td_spec,
        "--devices=" ++ args.devices,
        "--model-tuner-num-dispatch-candidates=100",
        "--num-candidates=" ++ toString args.num_candidates,
        "--codegen-pipeline=llvmgpu_tile_and_fuse",
        "--stop-after=benchmark-dispatches"]

/-- `boo_tuner.py` lines 76-87: `shlex.split(compile_command)` plus the six
appended tokens.  Nothing is removed from the recovered command; the empty
`--iree-codegen-tuning-spec-path=` is appended so that, flags being
last-wins, any earlier tuning-spec path is disabled. -/
def compile_args (shlexSplit : String → List String) (compile_command : String)
    (bench_dir : DirPath) : List String :=
  shlexSplit compile_command ++
    ["--iree-codegen-tuning-spec-path=",
     "--iree-config-add-tuner-attributes",
     "--iree-hal-dump-executable-benchmarks-to",
     bench_dir,
     "-o",
     "/dev/null"]

/-- The uncaught Python exceptions the orchestration itself can raise:
`ValueError` from the `[x] = ...` destructurings (lines 67-74),
`FileNotFoundError` from `os.listdir(bench_dir)` when the re-compile never
created the dump directory (line 91), `FileExistsError` from `os.mkdir`
(line 59). -/
inductive PyErr where
  | valueError
  | fileNotFoundError
  | fileExistsError
deriving DecidableEq, Repr

/-- Oracle for everything the external world decides during one
configuration's processing. -/
structure ConfigWorld where
  /-- Name `tempfile.mkdtemp(dir=".", prefix="boo-tuner-")` picks. -/
  mkdtempName : DirPath
  /-- `os.listdir(boo_cache_dir)` after the BOO compilation (line 67). -/
  cacheEntries : List String
  /-- `os.listdir(boo_cache_dir / op_cache_dir)` (line 70). -/
  opDirEntries : List String
  /-- Contents of the discovered `compile_command*` file (line 74). -/
  compileCommandRaw : String
  /-- Exit status of `subprocess.run(compile_args)` — never read. -/
  compileExit : Int
  /-- What the collaborators leave inside the workspace directory. -/
  producedEntries : List String
  /-- `os.listdir(bench_dir)` (line 91): `none` when the directory was
  never created (the listing raises), `some l` for its entries. -/
  benchListing : Option (List String)
  /-- Whether `tuner_main` raises for a given bench artifact path. -/
  tunerRaises : String → Bool

/-- Everything observable about one configuration's processing. -/
structure ConfigTrace where
  tmpName : DirPath
  /-- `fsLookup` of the workspace immediately before the compiler runs. -/
  wsAtCompile : Option (List String)
  /-- Copy of the oracle's `producedEntries` for this configuration. -/
  produced : List String
  /-- argv of the re-compile subprocess, when reached. -/
  compileArgv : Option (List String)
  tunerCalls : List TunerInvocation
  /-- The uncaught exception that aborted this configuration, if any. -/
  err : Option PyErr
  /-- The carried `starter_td_spec` after this configuration. -/
  starterOut : Option DirPath
  /-- Whether the end-of-configuration `shutil.rmtree(tmp_dir)` ran. -/
  cleanup : Bool
deriving DecidableEq, Repr

/-- The workspace path of a configuration (`boo_tuner.py` lines 55-61). -/
def tmpOf (args : Args) (w : ConfigWorld) : DirPath :=
  if args.tmp_dir ≠ "" then args.tmp_dir else w.mkdtempName

/-- The filesystem just before the workspace directory is (re)created:
with a pinned `--tmp-dir` the source first runs
`shutil.rmtree(tmp_dir, ignore_errors=True)`; otherwise `mkdtemp` creates
a fresh directory with no prior deletion. -/
def preOf (args : Args) (fs : Fs) (w : ConfigWorld) : Fs :=
  if args.tmp_dir ≠ "" then rmtree fs (tmpOf args w) else fs

/-- Trace of a configuration aborted by an uncaught exception before the
re-compile subprocess ran. -/
def errTrace (tmp : DirPath) (wsc : Option (List String)) (produced : List String)
    (starter : Option DirPath) (e : PyErr) : ConfigTrace :=
  { tmpName := tmp, wsAtCompile := wsc, produced := produced, compileArgv := none,
    tunerCalls := [], err := some e, starterOut := starter, cleanup := false }

/-- `boo_tuner.py` lines 92-118: the `for bench_file in os.listdir(bench_dir)`
loop.  Returns the recorded invocations, the carried `starter_td_spec`
afterwards, and the final `should_cleanup_tmp_dir`.  On success the carried
starter becomes `args.output_td_spec`; on an exception the traceback is
printed (recorded as `raised := true`) and `should_cleanup_tmp_dir`
becomes `False`. -/
def tunerLoop (args : Args) (raises : String → Bool) (bench_dir : DirPath) :
    List String → Option DirPath → Bool →
      List TunerInvocation × Option DirPath × Bool
  | [], starter, cleanup => ([], starter, cleanup)
  | f :: fsz, starter, cleanup =>
    let bench_path := bench_dir ++ "/" ++ f
    let argv := tuner_args args starter bench_path
    if raises bench_path then
      let r := tunerLoop args raises bench_dir fsz starter false
      (⟨bench_path, argv, true⟩ :: r.1, r.2)
    else
      let r := tunerLoop args raises bench_dir fsz (some args.output_td_spec) cleanup
      (⟨bench_path, argv, false⟩ :: r.1, r.2)

/-- One iteration of the `for idx, file_args in enumerate(mio_file_args)`
loop (`boo_tuner.py` lines 49-120), for one configuration:
workspace setup, BOO compilation (cache side effects from the oracle), the
two exactly-one destructurings, re-compile argv construction and subprocess
launch (exit status ignored), bench-directory enumeration, the tuner loop,
and the conditional final `shutil.rmtree(tmp_dir)`. -/
def processConfig (shlexSplit : String → List String) (args : Args)
    (starter : Option DirPath) (fs : Fs) (w : ConfigWorld) : ConfigTrace × Fs :=
  let tmp := tmpOf args w
  match mkdir (preOf args fs w) tmp with
  | none => (errTrace tmp none w.producedEntries starter PyErr.fileExistsError,
             preOf args fs w)
  | some fs1 =>
    let wsc := fsLookup fs1 tmp
    let fs2 := setDir fs1 tmp w.producedEntries
    match w.cacheEntries with
    | [_op_cache_dir] =>
      match w.opDirEntries.filter (fun f => pyStartswith f "compile_command") with
      | [_compile_command_path] =>
        let compile_command := pyStrip w.compileCommandRaw
        let bench_dir := tmp ++ "/bench"
        let cargv := compile_args shlexSplit compile_command bench_dir
        match w.benchListing with
        | none =>
          ({ tmpName := tmp, wsAtCompile := wsc, produced := w.producedEntries,
             compileArgv := some cargv, tunerCalls := [],
             err := some PyErr.fileNotFoundError, starterOut := starter,
             cleanup := false }, fs2)
        | some benchFiles =>
          let r := tunerLoop args w.tunerRaises bench_dir benchFiles starter
            (args.tmp_dir == "")
          ({ tmpName := tmp, wsAtCompile := wsc, produced := w.producedEntries,
             compileArgv := some cargv, tunerCalls := r.1, err := none,
             starterOut := r.2.1, cleanup := r.2.2 },
           if r.2.2 then rmtree fs2 tmp else fs2)
      | _ => (errTrace tmp wsc w.producedEntries starter PyErr.valueError, fs2)
    | _ => (errTrace tmp wsc w.producedEntries starter PyErr.valueError, fs2)

/-- The whole `for idx, file_args in enumerate(mio_file_args)` loop:
configurations in order, each consuming one oracle; an uncaught exception
ends the run with that configuration's trace last. -/
def runConfigs (shlexSplit : String → List String) (args : Args) :
    List (List String) → List ConfigWorld → Option DirPath → Fs →
      List ConfigTrace × Fs
  | [], _, _, fs => ([], fs)
  | _ :: _, [], _, fs => ([], fs)
  | _ :: cfgs, w :: ws, starter, fs =>
    let r := processConfig shlexSplit args starter fs w
    match r.1.err with
    | some _ => ([r.1], r.2)
    | none =>
      let rest := runConfigs shlexSplit args cfgs ws r.1.starterOut r.2
      (r.1 :: rest.1, rest.2)

/-- `main` after argument parsing: build `mio_file_args` from the commands
file (or a single empty configuration) and run the loop, the carried
starter initialised to `args.starter_td_spec`. -/
def mainRun (shlexSplit : String → List String) (args : Args)
    (commandLines : Option (List String)) (ws : List ConfigWorld) (fs : Fs) :
    List ConfigTrace × Fs :=
  runConfigs shlexSplit args (mio_file_args shlexSplit commandLines) ws
    args.starter_td_spec fs

/-- Plain whitespace splitter used to instantiate the opaque `shlex.split`
parameter on the quote-free concrete commands in this file (where the two
agree). -/
def splitWordsAux : List Char → List Char → List String
  | [], acc => if acc.isEmpty then [] else [String.mk acc.reverse]
  | c :: cs, acc =>
    if c = ' ' then
      if acc.isEmpty then splitWordsAux cs []
      else String.mk acc.reverse :: splitWordsAux cs []
    else splitWordsAux cs (c :: acc)

/-- Whitespace-splitting stand-in for `shlex.split` at concrete inputs. -/
def split0 (s : String) : List String :=
  splitWordsAux s.toList []


/-! ### Concrete instances used for evaluation -/

/-- A run with a pinned `--tmp-dir work`. -/
def argsTmp : Args :=
  { output_td_spec := "out.mlir", tmp_dir := "work" }

/-- A run with no `--tmp-dir` (fresh temp dir), no `--starter-td-spec`,
and `--num-candidates=5000`. -/
def argsCli : Args :=
  { output_td_spec := "out.mlir", num_candidates := 5000, tmp_dir := "" }

/-- A configuration whose cache layout is as expected and whose bench dump
holds two artifacts; the tuner raises exactly on `work/bench/b0.mlir`. -/
def wGood : ConfigWorld :=
  { mkdtempName := "boo-tuner-a", cacheEntries := ["op0"],
    opDirEntries := ["compile_command_0.txt", "module.vmfb"],
    compileCommandRaw := " iree-compile model.mlir\n",
    compileExit := 0, producedEntries := ["boo_cache", "bench"],
    benchListing := some ["b0.mlir", "b1.mlir"],
    tunerRaises := fun p => p == "work/bench/b0.mlir" }

/-- A well-behaved configuration with a single bench artifact and a tuner
that never raises; the re-compile subprocess exits nonzero (ignored). -/
def wCalm : ConfigWorld :=
  { mkdtempName := "boo-tuner-b", cacheEntries := ["op0"],
    opDirEntries := ["compile_command_0.txt"],
    compileCommandRaw := "iree-compile model.mlir",
    compileExit := 1, producedEntries := ["boo_cache", "bench", "extra.log"],
    benchListing := some ["b0.mlir"], tunerRaises := fun _ => false }

/-- A configuration where the compiler left the cache empty. -/
def wBadCache : ConfigWorld :=
  { mkdtempName := "boo-tuner-c", cacheEntries := [],
    opDirEntries := [], compileCommandRaw := "", compileExit := 0,
    producedEntries := ["boo_cache"], benchListing := none,
    tunerRaises := fun _ => false }

/-- A configuration where the bench directory exists but holds nothing. -/
def wEmptyBench : ConfigWorld :=
  { mkdtempName := "boo-tuner-d", cacheEntries := ["op0"],
    opDirEntries := ["compile_command_0.txt"],
    compileCommandRaw := "iree-compile model.mlir", compileExit := 7,
    producedEntries := ["boo_cache", "bench"], benchListing := some [],
    tunerRaises := fun _ => false }

/-- A configuration where the re-compile never created the bench dump
directory, so `os.listdir(bench_dir)` raises. -/
def wNoBenchDir : ConfigWorld :=
  { mkdtempName := "boo-tuner-e", cacheEntries := ["op0"],
    opDirEntries := ["compile_command_0.txt"],
    compileCommandRaw := "iree-compile model.mlir", compileExit := 2,
    producedEntries := ["boo_cache"], benchListing := none,
    tunerRaises := fun _ => false }

/-- A configuration whose recovered compile command already carries a
non-empty `--iree-codegen-tuning-spec-path` flag. -/
def wOldSpec : ConfigWorld :=
  { mkdtempName := "boo-tuner-f", cacheEntries := ["op0"],
    opDirEntries := ["compile_command_0.txt"],
    compileCommandRaw :=
      "iree-compile model.mlir --iree-codegen-tuning-spec-path=/old/spec.mlir\n",
    compileExit := 0, producedEntries := ["boo_cache", "bench"],
    benchListing := some [], tunerRaises := fun _ => false }

/-! ### Shared lemmas about the embedded operations -/

theorem fsLookup_cons_self (fs : Fs) (p : DirPath) (es : List String) :
    fsLookup ((p, es) :: fs) p = some es := by
  simp [fsLookup, List.find?_cons_of_pos]

theorem rmtree_cons (e : DirPath × List String) (t : Fs) (p : DirPath) :
    rmtree (e :: t) p =
      if (e.1 == p || pyStartswith e.1 (p ++ "/")) = true then rmtree t p
      else e :: rmtree t p := by
  cases hc : (e.1 == p || pyStartswith e.1 (p ++ "/")) with
  | true =>
    simp only [rmtree, List.filter_cons, hc, Bool.not_true, if_pos, Bool.false_eq_true,
      if_false]
  | false =>
    simp only [rmtree, List.filter_cons, hc, Bool.not_false, if_true]
    rfl

theorem fsLookup_cons_ne (e : DirPath × List String) (t : Fs) (p : DirPath)
    (h : (e.1 == p) = false) : fsLookup (e :: t) p = fsLookup t p := by
  simp [fsLookup, List.find?_cons_of_neg, h]

theorem fsLookup_rmtree_self (fs : Fs) (p : DirPath) :
    fsLookup (rmtree fs p) p = none := by
  induction fs with
  | nil => rfl
  | cons e t ih =>
    rw [rmtree_cons]
    cases hc : (e.1 == p || pyStartswith e.1 (p ++ "/")) with
    | true => rw [if_pos rfl]; exact ih
    | false =>
      rw [if_neg (by simp)]
      have hne : (e.1 == p) = false := by
        cases hep : (e.1 == p) with
        | false => rfl
        | true => rw [hep] at hc; simp at hc
      rw [fsLookup_cons_ne _ _ _ hne]; exact ih

theorem mkdir_fresh (fs : Fs) (p : DirPath) (h : fsLookup fs p = none) :
    mkdir fs p = some ((p, []) :: fs) := by
  simp [mkdir, h]

theorem preOf_fresh (args : Args) (fs : Fs) (w : ConfigWorld)
    (h : fsLookup fs w.mkdtempName = none) :
    fsLookup (preOf args fs w) (tmpOf args w) = none := by
  unfold preOf tmpOf
  by_cases hd : args.tmp_dir ≠ ""
  · simp [hd, fsLookup_rmtree_self]
  · simp [hd, h]

theorem tunerLoop_benchPaths (args : Args) (raises : String → Bool)
    (bench_dir : DirPath) :
    ∀ (files : List String) (starter : Option DirPath) (cleanup : Bool),
      (tunerLoop args raises bench_dir files starter cleanup).1.map
          (fun c => c.benchPath) =
        files.map (fun f => bench_dir ++ "/" ++ f) := by
  intro files
  induction files with
  | nil => intro starter cleanup; rfl
  | cons f fsz ih =>
    intro starter cleanup
    simp only [tunerLoop]
    by_cases h : raises (bench_dir ++ "/" ++ f) = true
    · simp [h, ih]
    · simp [h, ih]

theorem tunerLoop_cleanup (args : Args) (raises : String → Bool)
    (bench_dir : DirPath) :
    ∀ (files : List String) (starter : Option DirPath) (cleanup : Bool),
      (tunerLoop args raises bench_dir files starter cleanup).2.2 =
        (cleanup &&
          (tunerLoop args raises bench_dir files starter cleanup).1.all
            (fun c => !c.raised)) := by
  intro files
  induction files with
  | nil => intro starter cleanup; simp [tunerLoop]
  | cons f fsz ih =>
    intro starter cleanup
    simp only [tunerLoop]
    by_cases h : raises (bench_dir ++ "/" ++ f) = true
    · simp [h, ih]
    · simp [h, ih]

theorem tunerLoop_argv (args : Args) (raises : String → Bool)
    (bench_dir : DirPath) :
    ∀ (files : List String) (starter : Option DirPath) (cleanup : Bool)
      (c : TunerInvocation),
      c ∈ (tunerLoop args raises bench_dir files starter cleanup).1 →
        ∃ st2, c.argv = tuner_args args st2 c.benchPath := by
  intro files
  induction files with
  | nil => intro starter cleanup c hc; simp [tunerLoop] at hc
  | cons f fsz ih =>
    intro starter cleanup c hc
    simp only [tunerLoop] at hc
    by_cases h : raises (bench_dir ++ "/" ++ f) = true
    · rw [if_pos h] at hc
      rcases List.mem_cons.mp hc with hc | hc
      · exact ⟨starter, by rw [hc]⟩
      · exact ih _ _ c hc
    · rw [if_neg h] at hc
      rcases List.mem_cons.mp hc with hc | hc
      · exact ⟨starter, by rw [hc]⟩
      · exact ih _ _ c hc

theorem tuner_args_flags (args : Args) (starter : Option DirPath)
    (bench_path : String) :
    ("--num-candidates=" ++ toString args.num_candidates)
        ∈ tuner_args args starter bench_path ∧
      "--model-tuner-num-dispatch-candidates=100"
        ∈ tuner_args args starter bench_path := by
  unfold tuner_args
  by_cases h : args.starter_td_spec.isSome
  · simp [h]
  · simp [h]

theorem processConfig_good (split : String → List String) (args : Args)
    (starter : Option DirPath) (fs : Fs) (w : ConfigWorld)
    (od cf : String) (bfs : List String)
    (h0 : fsLookup fs w.mkdtempName = none)
    (h1 : w.cacheEntries = [od])
    (h2 : w.opDirEntries.filter (fun f => pyStartswith f "compile_command") = [cf])
    (h3 : w.benchListing = some bfs) :
    processConfig split args starter fs w =
      ({ tmpName := tmpOf args w, wsAtCompile := some [],
         produced := w.producedEntries,
         compileArgv := some (compile_args split (pyStrip w.compileCommandRaw)
           (tmpOf args w ++ "/bench")),
         tunerCalls := (tunerLoop args w.tunerRaises (tmpOf args w ++ "/bench")
           bfs starter (args.tmp_dir == "")).1,
         err := none,
         starterOut := (tunerLoop args w.tunerRaises (tmpOf args w ++ "/bench")
           bfs starter (args.tmp_dir == "")).2.1,
         cleanup := (tunerLoop args w.tunerRaises (tmpOf args w ++ "/bench")
           bfs starter (args.tmp_dir == "")).2.2 },
       if (tunerLoop args w.tunerRaises (tmpOf args w ++ "/bench") bfs starter
           (args.tmp_dir == "")).2.2 then
         rmtree (setDir ((tmpOf args w, []) :: preOf args fs w) (tmpOf args w)
           w.producedEntries) (tmpOf args w)
       else
         setDir ((tmpOf args w, []) :: preOf args fs w) (tmpOf args w)
           w.producedEntries) := by
  simp only [processConfig]
  rw [mkdir_fresh _ _ (preOf_fresh args fs w h0), h1, h2, h3]
  simp [fsLookup_cons_self]

theorem processConfig_badCache (split : String → List String) (args : Args)
    (starter : Option DirPath) (fs : Fs) (w : ConfigWorld)
    (h0 : fsLookup fs w.mkdtempName = none)
    (h1 : w.cacheEntries.length ≠ 1 ∨
      (w.opDirEntries.filter
        (fun f => pyStartswith f "compile_command")).length ≠ 1) :
    processConfig split args starter fs w =
      (errTrace (tmpOf args w) (some []) w.producedEntries starter
         PyErr.valueError,
       setDir ((tmpOf args w, []) :: preOf args fs w) (tmpOf args w)
         w.producedEntries) := by
  simp only [processConfig]
  rw [mkdir_fresh _ _ (preOf_fresh args fs w h0)]
  rcases hce : w.cacheEntries with _ | ⟨a, _ | ⟨b, t⟩⟩
  · simp [fsLookup_cons_self]
  · rcases hfe : w.opDirEntries.filter (fun f => pyStartswith f "compile_command")
      with _ | ⟨c, _ | ⟨d, t2⟩⟩
    · simp [fsLookup_cons_self]
    · exfalso
      rcases h1 with h1 | h1
      · rw [hce] at h1; simp at h1
      · rw [hfe] at h1; simp at h1
    · simp [fsLookup_cons_self]
  · simp [fsLookup_cons_self]

theorem processConfig_noBench (split : String → List String) (args : Args)
    (starter : Option DirPath) (fs : Fs) (w : ConfigWorld)
    (od cf : String)
    (h0 : fsLookup fs w.mkdtempName = none)
    (h1 : w.cacheEntries = [od])
    (h2 : w.opDirEntries.filter (fun f => pyStartswith f "compile_command") = [cf])
    (h3 : w.benchListing = none) :
    processConfig split args starter fs w =
      ({ tmpName := tmpOf args w, wsAtCompile := some [],
         produced := w.producedEntries,
         compileArgv := some (compile_args split (pyStrip w.compileCommandRaw)
           (tmpOf args w ++ "/bench")),
         tunerCalls := [], err := some PyErr.fileNotFoundError,
         starterOut := starter, cleanup := false },
       setDir ((tmpOf args w, []) :: preOf args fs w) (tmpOf args w)
         w.producedEntries) := by
  simp only [processConfig]
  rw [mkdir_fresh _ _ (preOf_fresh args fs w h0), h1, h2, h3]
  simp [fsLookup_cons_self]

theorem runConfigs_cons_err (split : String → List String) (args : Args)
    (c : List String) (cfgs : List (List String)) (w : ConfigWorld)
    (ws : List ConfigWorld) (starter : Option DirPath) (fs : Fs) (e : PyErr)
    (h : (processConfig split args starter fs w).1.err = some e) :
    runConfigs split args (c :: cfgs) (w :: ws) starter fs =
      ([(processConfig split args starter fs w).1],
       (processConfig split args starter fs w).2) := by
  simp only [runConfigs]
  split
  · rfl
  · simp_all

theorem runConfigs_cons_ok (split : String → List String) (args : Args)
    (c : List String) (cfgs : List (List String)) (w : ConfigWorld)
    (ws : List ConfigWorld) (starter : Option DirPath) (fs : Fs)
    (h : (processConfig split args starter fs w).1.err = none) :
    runConfigs split args (c :: cfgs) (w :: ws) starter fs =
      ((processConfig split args starter fs w).1 ::
         (runConfigs split args cfgs ws
           (processConfig split args starter fs w).1.starterOut
           (processConfig split args starter fs w).2).1,
       (runConfigs split args cfgs ws
         (processConfig split args starter fs w).1.starterOut
         (processConfig split args starter fs w).2).2) := by
  simp only [runConfigs]
  split
  · simp_all
  · rfl

theorem runConfigs_mem (split : String → List String) (args : Args) :
    ∀ (cfgs : List (List String)) (ws : List ConfigWorld)
      (starter : Option DirPath) (fs : Fs) (t : ConfigTrace),
      t ∈ (runConfigs split args cfgs ws starter fs).1 →
        ∃ st2 fs2 w, t = (processConfig split args st2 fs2 w).1 := by
  intro cfgs
  induction cfgs with
  | nil => intro ws starter fs t ht; simp [runConfigs] at ht
  | cons c cfgs ih =>
    intro ws starter fs t ht
    cases ws with
    | nil => simp [runConfigs] at ht
    | cons w ws =>
      rcases he : (processConfig split args starter fs w).1.err with _ | e
      · rw [runConfigs_cons_ok split args c cfgs w ws starter fs he] at ht
        rcases List.mem_cons.mp ht with ht | ht
        · exact ⟨starter, fs, w, ht⟩
        · exact ih ws _ _ t ht
      · rw [runConfigs_cons_err split args c cfgs w ws starter fs e he] at ht
        rcases List.mem_cons.mp ht with ht | ht
        · exact ⟨starter, fs, w, ht⟩
        · simp at ht

theorem processConfig_exit_irrel (split : String → List String) (args : Args)
    (starter : Option DirPath) (fs : Fs) (w : ConfigWorld) (e : Int) :
    processConfig split args starter fs { w with compileExit := e } =
      processConfig split args starter fs w := by
  cases w
  rfl

theorem processConfig_ws_empty (split : String → List String) (args : Args)
    (starter : Option DirPath) (fs : Fs) (w : ConfigWorld)
    (hd : args.tmp_dir ≠ "") :
    (processConfig split args starter fs w).1.wsAtCompile = some [] := by
  have h0 : fsLookup (preOf args fs w) (tmpOf args w) = none := by
    simp [preOf, hd, fsLookup_rmtree_self]
  simp only [processConfig]
  rw [mkdir_fresh _ _ h0]
  rcases hce : w.cacheEntries with _ | ⟨a, _ | ⟨b, t⟩⟩
  · simp [errTrace, fsLookup_cons_self]
  · rcases hfe : w.opDirEntries.filter (fun f => pyStartswith f "compile_command")
      with _ | ⟨c, _ | ⟨d, t2⟩⟩
    · simp [errTrace, fsLookup_cons_self]
    · rcases hbl : w.benchListing with _ | bfs
      · simp [fsLookup_cons_self]
      · simp [fsLookup_cons_self]
    · simp [errTrace, fsLookup_cons_self]
  · simp [errTrace, fsLookup_cons_self]

theorem tmp_dir_beq_false (args : Args) (hd : args.tmp_dir ≠ "") :
    (args.tmp_dir == "") = false := by
  cases hb : (args.tmp_dir == "") with
  | false => rfl
  | true => exact absurd (by simpa using hb) hd

theorem processConfig_fs_after (split : String → List String) (args : Args)
    (starter : Option DirPath) (fs : Fs) (w : ConfigWorld)
    (hd : args.tmp_dir ≠ "") :
    fsLookup (processConfig split args starter fs w).2 args.tmp_dir =
      some (processConfig split args starter fs w).1.produced := by
  have htmp : tmpOf args w = args.tmp_dir := by simp [tmpOf, hd]
  rw [← htmp]
  have h0 : fsLookup (preOf args fs w) (tmpOf args w) = none := by
    simp [preOf, hd, fsLookup_rmtree_self]
  simp only [processConfig]
  rw [mkdir_fresh _ _ h0]
  rcases hce : w.cacheEntries with _ | ⟨a, _ | ⟨b, t⟩⟩
  · simp [errTrace, setDir, fsLookup_cons_self]
  · rcases hfe : w.opDirEntries.filter (fun f => pyStartswith f "compile_command")
      with _ | ⟨c, _ | ⟨d, t2⟩⟩
    · simp [errTrace, setDir, fsLookup_cons_self]
    · rcases hbl : w.benchListing with _ | bfs
      · simp [setDir, fsLookup_cons_self]
      · rw [tmp_dir_beq_false args hd]
        have hcl := tunerLoop_cleanup args w.tunerRaises (tmpOf args w ++ "/bench")
          bfs starter false
        rw [Bool.false_and] at hcl
        simp [hcl, setDir, fsLookup_cons_self]
    · simp [errTrace, setDir, fsLookup_cons_self]
  · simp [errTrace, setDir, fsLookup_cons_self]

theorem lastOfCons {α : Type} (a : α) (l : List α) (h : l ≠ []) :
    (a :: l).getLast? = l.getLast? := by
  cases l with
  | nil => exact absurd rfl h
  | cons b t => rfl

theorem runConfigs_last_fs (split : String → List String) (args : Args)
    (hd : args.tmp_dir ≠ "") :
    ∀ (cfgs : List (List String)) (ws : List ConfigWorld)
      (starter : Option DirPath) (fs : Fs),
      cfgs ≠ [] → ws ≠ [] →
      ∃ t, (runConfigs split args cfgs ws starter fs).1.getLast? = some t ∧
        fsLookup (runConfigs split args cfgs ws starter fs).2 args.tmp_dir =
          some t.produced := by
  intro cfgs
  induction cfgs with
  | nil => intro ws starter fs hc _; exact absurd rfl hc
  | cons c cfgs ih =>
    intro ws starter fs _ hw
    cases ws with
    | nil => exact absurd rfl hw
    | cons w ws =>
      rcases he : (processConfig split args starter fs w).1.err with _ | e
      · rw [runConfigs_cons_ok split args c cfgs w ws starter fs he]
        by_cases hc2 : cfgs = []
        · subst hc2
          exact ⟨(processConfig split args starter fs w).1, rfl,
            processConfig_fs_after split args starter fs w hd⟩
        · cases ws with
          | nil =>
            cases cfgs with
            | nil => exact absurd rfl hc2
            | cons c2 cfgs2 =>
              exact ⟨(processConfig split args starter fs w).1, rfl,
                processConfig_fs_after split args starter fs w hd⟩
          | cons w2 ws2 =>
            rcases ih (w2 :: ws2) (processConfig split args starter fs w).1.starterOut
              (processConfig split args starter fs w).2 hc2 (by simp)
              with ⟨t, hlast, hlook⟩
            refine ⟨t, ?_, hlook⟩
            rw [lastOfCons _ _ ?_, hlast]
            intro hnil
            rw [hnil] at hlast
            simp at hlast
      · rw [runConfigs_cons_err split args c cfgs w ws starter fs e he]
        exact ⟨(processConfig split args starter fs w).1, rfl,
          processConfig_fs_after split args starter fs w hd⟩

theorem processConfig_calls_argv (split : String → List String) (args : Args)
    (starter : Option DirPath) (fs : Fs) (w : ConfigWorld)
    (c : TunerInvocation)
    (hc : c ∈ (processConfig split args starter fs w).1.tunerCalls) :
    ∃ st2, c.argv = tuner_args args st2 c.benchPath := by
  simp only [processConfig] at hc
  rcases hm : mkdir (preOf args fs w) (tmpOf args w) with _ | fs1
  · rw [hm] at hc
    simp [errTrace] at hc
  · rw [hm] at hc
    rcases hce : w.cacheEntries with _ | ⟨a, _ | ⟨b, t⟩⟩
    · rw [hce] at hc; simp [errTrace] at hc
    · rw [hce] at hc
      rcases hfe : w.opDirEntries.filter (fun f => pyStartswith f "compile_command")
        with _ | ⟨d, _ | ⟨e2, t2⟩⟩
      · rw [hfe] at hc; simp [errTrace] at hc
      · rw [hfe] at hc
        rcases hbl : w.benchListing with _ | bfs
        · rw [hbl] at hc; simp at hc
        · rw [hbl] at hc
          exact tunerLoop_argv args w.tunerRaises (tmpOf args w ++ "/bench") bfs
            starter (args.tmp_dir == "") c hc
      · rw [hfe] at hc; simp [errTrace] at hc
    · rw [hce] at hc; simp [errTrace] at hc

/-- C4: if, after the compiler invocation, the cache directory does not
contain exactly one entry, or the single op subdirectory does not contain
exactly one `compile_command*` file, the configuration dies with an
uncaught `ValueError` from the `[x] = ...` destructuring before any tuner
invocation, and the whole run stops at that configuration. -/
theorem cache_layout_violation_is_fatal (split : String → List String)
    (args : Args) (starter : Option DirPath) (fs : Fs) (w : ConfigWorld)
    (c : List String) (cfgs : List (List String)) (ws : List ConfigWorld)
    (h0 : fsLookup fs w.mkdtempName = none)
    (h1 : w.cacheEntries.length ≠ 1 ∨
      (w.opDirEntries.filter
        (fun f => pyStartswith f "compile_command")).length ≠ 1) :
    (processConfig split args starter fs w).1.err = some PyErr.valueError ∧
    (processConfig split args starter fs w).1.tunerCalls = [] ∧
    runConfigs split args (c :: cfgs) (w :: ws) starter fs =
      ([(processConfig split args starter fs w).1],
       (processConfig split args starter fs w).2) := by
  have hpc := processConfig_badCache split args starter fs w h0 h1
  refine ⟨by rw [hpc]; rfl, by rw [hpc]; rfl, ?_⟩
  exact runConfigs_cons_err split args c cfgs w ws starter fs PyErr.valueError
    (by rw [hpc]; rfl)

/-- C4 witness: an empty compiler cache aborts the configuration before
tuning. -/
theorem cache_layout_violation_is_fatal_check :
    (processConfig split0 argsTmp none [] wBadCache).1.err =
      some PyErr.valueError ∧
    (processConfig split0 argsTmp none [] wBadCache).1.tunerCalls = [] ∧
    runConfigs split0 argsTmp [[]] [wBadCache] none [] =
      ([(processConfig split0 argsTmp none [] wBadCache).1],
       (processConfig split0 argsTmp none [] wBadCache).2) :=
  cache_layout_violation_is_fatal split0 argsTmp none [] wBadCache [] [] []
    (by decide) (Or.inl (by decide))

/-- C8: with a pinned `--tmp-dir`, every configuration of every run sees an
existing, empty workspace directory immediately before its compiler
invocation, whatever the filesystem held at that path beforehand
(`shutil.rmtree` then `os.mkdir`). -/
theorem pinned_workspace_empty_before_compile (split : String → List String)
    (args : Args) (cfgs : List (List String)) (ws : List ConfigWorld)
    (starter : Option DirPath) (fs : Fs) (t : ConfigTrace)
    (hd : args.tmp_dir ≠ "")
    (ht : t ∈ (runConfigs split args cfgs ws starter fs).1) :
    t.wsAtCompile = some [] := by
  rcases runConfigs_mem split args cfgs ws starter fs t ht with ⟨st2, fs2, w, rfl⟩
  exact processConfig_ws_empty split args st2 fs2 w hd

/-- C8 witness: a pinned run over a workspace path holding stale contents
still starts its compile with an empty workspace. -/
theorem pinned_workspace_empty_before_compile_check :
    (processConfig split0 argsTmp none [("work", ["stale.txt"])] wGood).1.wsAtCompile =
      some [] :=
  pinned_workspace_empty_before_compile split0 argsTmp [[]] [wGood] none
    [("work", ["stale.txt"])]
    (processConfig split0 argsTmp none [("work", ["stale.txt"])] wGood).1
    (by decide) (by decide)

/-- C10: with a pinned `--tmp-dir` and several configurations, the
workspace-setup step of every configuration after the first deletes the
entire pinned workspace — including contents a previous configuration
retained after a tuner failure — so at the end of the run the pinned path
holds at most the last processed configuration's workspace contents. -/
theorem pinned_workspace_only_last_survives (split : String → List String)
    (args : Args) (cfgs : List (List String)) (ws : List ConfigWorld)
    (starter : Option DirPath) (fs : Fs)
    (hd : args.tmp_dir ≠ "") (hc : cfgs ≠ []) (hw : ws ≠ []) :
    (∀ t ∈ (runConfigs split args cfgs ws starter fs).1.tail,
        t.wsAtCompile = some []) ∧
    ∃ t, (runConfigs split args cfgs ws starter fs).1.getLast? = some t ∧
      fsLookup (runConfigs split args cfgs ws starter fs).2 args.tmp_dir =
        some t.produced := by
  constructor
  · intro t ht
    rcases runConfigs_mem split args cfgs ws starter fs t
      (List.mem_of_mem_tail ht) with ⟨st2, fs2, w, rfl⟩
    exact processConfig_ws_empty split args st2 fs2 w hd
  · exact runConfigs_last_fs split args hd cfgs ws starter fs hc hw

/-- C10 witness: two pinned configurations, the first with a tuner failure;
the second still starts from an empty workspace and only the last
configuration's contents remain at the pinned path. -/
theorem pinned_workspace_only_last_survives_check :
    (∀ t ∈ (runConfigs split0 argsTmp [[], []] [wGood, wCalm] none []).1.tail,
        t.wsAtCompile = some []) ∧
    ∃ t, (runConfigs split0 argsTmp [[], []] [wGood, wCalm] none []).1.getLast? =
        some t ∧
      fsLookup (runConfigs split0 argsTmp [[], []] [wGood, wCalm] none []).2
          argsTmp.tmp_dir =
        some t.produced :=
  pinned_workspace_only_last_survives split0 argsTmp [[], []] [wGood, wCalm]
    none [] (by decide) (by decide) (List.cons_ne_nil _ _)

/-- C9: every tuner invocation of every benchmark artifact of every
configuration in a run carries the run's `--num-candidates` value verbatim
and the fixed per-dispatch cap `--model-tuner-num-dispatch-candidates=100`. -/
theorem candidate_flags_passed_through (split : String → List String)
    (args : Args) (cfgs : List (List String)) (ws : List ConfigWorld)
    (starter : Option DirPath) (fs : Fs) (t : ConfigTrace)
    (c : TunerInvocation)
    (ht : t ∈ (runConfigs split args cfgs ws starter fs).1)
    (hc : c ∈ t.tunerCalls) :
    ("--num-candidates=" ++ toString args.num_candidates) ∈ c.argv ∧
      "--model-tuner-num-dispatch-candidates=100" ∈ c.argv := by
  rcases runConfigs_mem split args cfgs ws starter fs t ht with ⟨st2, fs2, w, rfl⟩
  rcases processConfig_calls_argv split args st2 fs2 w c hc with ⟨st3, harg⟩
  rw [harg]
  exact tuner_args_flags args st3 c.benchPath

/-- C9 witness: `--num-candidates=5000` reaches a concrete invocation's
argv together with the fixed dispatch cap. -/
theorem candidate_flags_passed_through_check :
    ("--num-candidates=" ++ toString argsCli.num_candidates) ∈
      ((processConfig split0 argsCli none [] wCalm).1.tunerCalls.getD 0
        ⟨"", [], false⟩).argv ∧
    "--model-tuner-num-dispatch-candidates=100" ∈
      ((processConfig split0 argsCli none [] wCalm).1.tunerCalls.getD 0
        ⟨"", [], false⟩).argv :=
  candidate_flags_passed_through split0 argsCli [[]] [wCalm] none []
    (processConfig split0 argsCli none [] wCalm).1
    ((processConfig split0 argsCli none [] wCalm).1.tunerCalls.getD 0
      ⟨"", [], false⟩)
    (by decide) (by decide)

/-- C2: once a configuration's processing runs to completion, the final
`shutil.rmtree(tmp_dir)` executes iff no `--tmp-dir` was given on the
command line and no tuner invocation of that configuration raised; and
when it executes, the workspace path is gone afterwards. -/
theorem workspace_cleanup_iff (split : String → List String) (args : Args)
    (starter : Option DirPath) (fs : Fs) (w : ConfigWorld)
    (od cf : String) (bfs : List String)
    (h0 : fsLookup fs w.mkdtempName = none)
    (h1 : w.cacheEntries = [od])
    (h2 : w.opDirEntries.filter (fun f => pyStartswith f "compile_command") = [cf])
    (h3 : w.benchListing = some bfs) :
    ((processConfig split args starter fs w).1.cleanup = true ↔
      (args.tmp_dir = "" ∧
        ∀ c ∈ (processConfig split args starter fs w).1.tunerCalls,
          c.raised = false)) ∧
    ((processConfig split args starter fs w).1.cleanup = true →
      fsLookup (processConfig split args starter fs w).2 (tmpOf args w) =
        none) := by
  rw [processConfig_good split args starter fs w od cf bfs h0 h1 h2 h3]
  constructor
  · rw [tunerLoop_cleanup]
    simp [List.all_eq_true, Bool.and_eq_true, Bool.not_eq_true', beq_iff_eq]
  · intro hcl
    simp only at hcl
    rw [if_pos hcl]
    exact fsLookup_rmtree_self _ _

/-- C2 witness: a pinned-workspace configuration with one failed tuner call
is not cleaned up, matching both sides of the iff. -/
theorem workspace_cleanup_iff_check :
    ((processConfig split0 argsTmp none [] wGood).1.cleanup = true ↔
      (argsTmp.tmp_dir = "" ∧
        ∀ c ∈ (processConfig split0 argsTmp none [] wGood).1.tunerCalls,
          c.raised = false)) ∧
    ((processConfig split0 argsTmp none [] wGood).1.cleanup = true →
      fsLookup (processConfig split0 argsTmp none [] wGood).2
          (tmpOf argsTmp wGood) =
        none) :=
  workspace_cleanup_iff split0 argsTmp none [] wGood "op0"
    "compile_command_0.txt" ["b0.mlir", "b1.mlir"]
    (by decide) (by decide) (by decide) (by decide)

/-- C5: a tuner exception for a benchmark artifact never aborts the run:
the configuration still finishes without an uncaught error, every artifact
of the bench listing is fed to the tuner exactly once and in order, a
raised invocation (whose traceback is printed) suppresses the workspace
cleanup, and the run continues with the subsequent configurations. -/
theorem tuner_failure_isolation (split : String → List String) (args : Args)
    (starter : Option DirPath) (fs : Fs) (w : ConfigWorld)
    (od cf : String) (bfs : List String) (c : List String)
    (cfgs : List (List String)) (ws : List ConfigWorld)
    (h0 : fsLookup fs w.mkdtempName = none)
    (h1 : w.cacheEntries = [od])
    (h2 : w.opDirEntries.filter (fun f => pyStartswith f "compile_command") = [cf])
    (h3 : w.benchListing = some bfs) :
    (processConfig split args starter fs w).1.err = none ∧
    (processConfig split args starter fs w).1.tunerCalls.map
        (fun c2 => c2.benchPath) =
      bfs.map (fun f => tmpOf args w ++ "/bench" ++ "/" ++ f) ∧
    ((∃ c2 ∈ (processConfig split args starter fs w).1.tunerCalls,
        c2.raised = true) →
      (processConfig split args starter fs w).1.cleanup = false) ∧
    runConfigs split args (c :: cfgs) (w :: ws) starter fs =
      ((processConfig split args starter fs w).1 ::
         (runConfigs split args cfgs ws
           (processConfig split args starter fs w).1.starterOut
           (processConfig split args starter fs w).2).1,
       (runConfigs split args cfgs ws
         (processConfig split args starter fs w).1.starterOut
         (processConfig split args starter fs w).2).2) := by
  have hpc := processConfig_good split args starter fs w od cf bfs h0 h1 h2 h3
  refine ⟨by rw [hpc], ?_, ?_, ?_⟩
  · rw [hpc]
    exact tunerLoop_benchPaths args w.tunerRaises (tmpOf args w ++ "/bench")
      bfs starter (args.tmp_dir == "")
  · rw [hpc]
    intro hex
    rcases hex with ⟨c2, hc2, hr2⟩
    simp only at hc2 hr2 ⊢
    rw [tunerLoop_cleanup]
    have hall : ((tunerLoop args w.tunerRaises (tmpOf args w ++ "/bench") bfs
        starter (args.tmp_dir == "")).1.all (fun c3 => !c3.raised)) = false := by
      cases hall2 : ((tunerLoop args w.tunerRaises (tmpOf args w ++ "/bench") bfs
          starter (args.tmp_dir == "")).1.all (fun c3 => !c3.raised)) with
      | false => rfl
      | true =>
        have := List.all_eq_true.mp hall2 c2 hc2
        rw [hr2] at this
        simp at this
    rw [hall, Bool.and_false]
  · exact runConfigs_cons_ok split args c cfgs w ws starter fs (by rw [hpc])

/-- C5 witness: two artifacts, the first raising; both are processed, the
configuration ends cleanly, cleanup is suppressed and the run goes on. -/
theorem tuner_failure_isolation_check :
    (processConfig split0 argsTmp none [] wGood).1.err = none ∧
    (processConfig split0 argsTmp none [] wGood).1.tunerCalls.map
        (fun c2 => c2.benchPath) =
      ["b0.mlir", "b1.mlir"].map
        (fun f => tmpOf argsTmp wGood ++ "/bench" ++ "/" ++ f) ∧
    ((∃ c2 ∈ (processConfig split0 argsTmp none [] wGood).1.tunerCalls,
        c2.raised = true) →
      (processConfig split0 argsTmp none [] wGood).1.cleanup = false) ∧
    runConfigs split0 argsTmp [[], []] [wGood, wCalm] none [] =
      ((processConfig split0 argsTmp none [] wGood).1 ::
         (runConfigs split0 argsTmp [[]] [wCalm]
           (processConfig split0 argsTmp none [] wGood).1.starterOut
           (processConfig split0 argsTmp none [] wGood).2).1,
       (runConfigs split0 argsTmp [[]] [wCalm]
         (processConfig split0 argsTmp none [] wGood).1.starterOut
         (processConfig split0 argsTmp none [] wGood).2).2) :=
  tuner_failure_isolation split0 argsTmp none [] wGood "op0"
    "compile_command_0.txt" ["b0.mlir", "b1.mlir"] [] [[]] [wCalm]
    (by decide) (by decide) (by decide) (by decide)

/-- C7: commands-file lines starting with a hash contribute nothing to the
parsed configuration sequence, and a two-line file whose second line is a
comment yields exactly one processed configuration. -/
theorem comment_lines_excluded (split : String → List String) (args : Args)
    (l1 l2 : String) (h1 : pyStartswith l1 "#" = false)
    (h2 : pyStartswith l2 "#" = true) :
    (∀ lines : List String,
        mio_file_args split (some lines) =
          mio_file_args split
            (some (lines.filter (fun s => !(pyStartswith s "#"))))) ∧
    mio_file_args split (some [l1, l2]) = [split l1] ∧
    ∀ (w : ConfigWorld) (ws : List ConfigWorld) (fs : Fs),
      (mainRun split args (some [l1, l2]) (w :: ws) fs).1.length = 1 := by
  refine ⟨?_, ?_, ?_⟩
  · intro lines
    simp [mio_file_args, List.filter_filter]
  · simp [mio_file_args, List.filter_cons, h1, h2]
  · intro w ws fs
    have hm : mio_file_args split (some [l1, l2]) = [split l1] := by
      simp [mio_file_args, List.filter_cons, h1, h2]
    rw [mainRun, hm]
    rcases he : (processConfig split args args.starter_td_spec fs w).1.err
      with _ | e
    · rw [runConfigs_cons_ok split args (split l1) [] w ws
        args.starter_td_spec fs he]
      simp [runConfigs]
    · rw [runConfigs_cons_err split args (split l1) [] w ws
        args.starter_td_spec fs e he]
      rfl

/-- C7 witness: a concrete two-line commands file, second line commented. -/
theorem comment_lines_excluded_check :
    (∀ lines : List String,
        mio_file_args split0 (some lines) =
          mio_file_args split0
            (some (lines.filter (fun s => !(pyStartswith s "#"))))) ∧
    mio_file_args split0 (some ["convbfp16 -n 6", "# convbfp16 -n 7"]) =
      [split0 "convbfp16 -n 6"] ∧
    ∀ (w : ConfigWorld) (ws : List ConfigWorld) (fs : Fs),
      (mainRun split0 argsCli (some ["convbfp16 -n 6", "# convbfp16 -n 7"])
          (w :: ws) fs).1.length = 1 :=
  comment_lines_excluded split0 argsCli "convbfp16 -n 6" "# convbfp16 -n 7"
    (by decide) (by decide)

/-- C3 counterexample: on a recovered compile command that already carries
`--iree-codegen-tuning-spec-path=/old/spec.mlir`, the re-executed command
still contains that non-empty tuning-spec token — nothing is stripped —
contradicting the claim that no non-empty tuning-spec-path flag remains. -/
theorem old_tuning_spec_token_remains :
    (processConfig split0 argsTmp none [] wOldSpec).1.compileArgv =
      some ["iree-compile", "model.mlir",
        "--iree-codegen-tuning-spec-path=/old/spec.mlir",
        "--iree-codegen-tuning-spec-path=",
        "--iree-config-add-tuner-attributes",
        "--iree-hal-dump-executable-benchmarks-to", "work/bench", "-o",
        "/dev/null"] ∧
    "--iree-codegen-tuning-spec-path=/old/spec.mlir" ∈
      compile_args split0 (pyStrip wOldSpec.compileCommandRaw) "work/bench" := by
  decide

/-- C3 (amended): the re-executed command is the original command's tokens
unchanged followed by the six appended tokens (empty tuning-spec-path flag,
attribute-injection flag, benchmark-dump flag with the bench directory, and
the discard-output target); consequently the last tuning-spec-path flag of
the executed command is the appended empty-valued one, which disables any
earlier tuning spec under last-flag-wins semantics. -/
theorem compile_command_reassembly (split : String → List String)
    (cmd : String) (bd : DirPath)
    (hbd : pyStartswith bd "--iree-codegen-tuning-spec-path" = false) :
    (compile_args split cmd bd).take (split cmd).length = split cmd ∧
    (compile_args split cmd bd).drop (split cmd).length =
      ["--iree-codegen-tuning-spec-path=",
       "--iree-config-add-tuner-attributes",
       "--iree-hal-dump-executable-benchmarks-to", bd, "-o", "/dev/null"] ∧
    ((compile_args split cmd bd).filter
        (fun t2 => pyStartswith t2 "--iree-codegen-tuning-spec-path")).getLast? =
      some "--iree-codegen-tuning-spec-path=" := by
  refine ⟨List.take_left _ _, List.drop_left _ _, ?_⟩
  rw [compile_args, List.filter_append]
  have hsuf : (["--iree-codegen-tuning-spec-path=",
      "--iree-config-add-tuner-attributes",
      "--iree-hal-dump-executable-benchmarks-to", bd, "-o",
      "/dev/null"].filter
        (fun t2 => pyStartswith t2 "--iree-codegen-tuning-spec-path")) =
      ["--iree-codegen-tuning-spec-path="] := by
    have e1 : pyStartswith "--iree-codegen-tuning-spec-path="
        "--iree-codegen-tuning-spec-path" = true := by decide
    have e2 : pyStartswith "--iree-config-add-tuner-attributes"
        "--iree-codegen-tuning-spec-path" = false := by decide
    have e3 : pyStartswith "--iree-hal-dump-executable-benchmarks-to"
        "--iree-codegen-tuning-spec-path" = false := by decide
    have e4 : pyStartswith "-o" "--iree-codegen-tuning-spec-path" = false := by
      decide
    have e5 : pyStartswith "/dev/null" "--iree-codegen-tuning-spec-path" =
        false := by decide
    simp [List.filter_cons, e1, e2, e3, e4, e5, hbd]
  rw [hsuf]
  exact List.getLast?_concat _

/-- C3 witness for the amended claim, at a concrete command and bench
directory. -/
theorem compile_command_reassembly_check :
    (compile_args split0 "iree-compile model.mlir" "work/bench").take
        (split0 "iree-compile model.mlir").length =
      split0 "iree-compile model.mlir" ∧
    (compile_args split0 "iree-compile model.mlir" "work/bench").drop
        (split0 "iree-compile model.mlir").length =
      ["--iree-codegen-tuning-spec-path=",
       "--iree-config-add-tuner-attributes",
       "--iree-hal-dump-executable-benchmarks-to", "work/bench", "-o",
       "/dev/null"] ∧
    ((compile_args split0 "iree-compile model.mlir" "work/bench").filter
        (fun t2 => pyStartswith t2 "--iree-codegen-tuning-spec-path")).getLast? =
      some "--iree-codegen-tuning-spec-path=" :=
  compile_command_reassembly split0 "iree-compile model.mlir" "work/bench"
    (by decide)

/-- C6 counterexample: when the re-compile never creates the bench dump
directory (benchmark files absent because the directory is missing), the
bench enumeration raises an uncaught `FileNotFoundError` instead of
yielding a silent empty enumeration. -/
theorem missing_bench_dir_raises :
    (processConfig split0 argsTmp none [] wNoBenchDir).1.err =
      some PyErr.fileNotFoundError ∧
    (processConfig split0 argsTmp none [] wNoBenchDir).1.tunerCalls = [] := by
  decide

/-- C6 (amended): if the bench directory exists but is empty, the
configuration yields zero tuner invocations and no error; if the bench
directory was never created, the enumeration raises an uncaught
`FileNotFoundError`; and the re-compile subprocess's exit status never
influences the configuration's behaviour. -/
theorem empty_bench_enumeration (split : String → List String) (args : Args)
    (starter : Option DirPath) (fs : Fs) (w : ConfigWorld) (od cf : String)
    (h0 : fsLookup fs w.mkdtempName = none)
    (h1 : w.cacheEntries = [od])
    (h2 : w.opDirEntries.filter (fun f => pyStartswith f "compile_command") = [cf]) :
    (w.benchListing = some [] →
      (processConfig split args starter fs w).1.tunerCalls = [] ∧
        (processConfig split args starter fs w).1.err = none) ∧
    (w.benchListing = none →
      (processConfig split args starter fs w).1.err =
        some PyErr.fileNotFoundError) ∧
    ∀ e : Int,
      processConfig split args starter fs { w with compileExit := e } =
        processConfig split args starter fs w := by
  refine ⟨?_, ?_, processConfig_exit_irrel split args starter fs w⟩
  · intro h3
    rw [processConfig_good split args starter fs w od cf [] h0 h1 h2 h3]
    exact ⟨rfl, rfl⟩
  · intro h3
    rw [processConfig_noBench split args starter fs w od cf h0 h1 h2 h3]

/-- C6 witness for the amended claim: an existing empty bench directory
gives zero tuner calls and no error, independently of the exit status. -/
theorem empty_bench_enumeration_check :
    (wEmptyBench.benchListing = some [] →
      (processConfig split0 argsTmp none [] wEmptyBench).1.tunerCalls = [] ∧
        (processConfig split0 argsTmp none [] wEmptyBench).1.err = none) ∧
    (wEmptyBench.benchListing = none →
      (processConfig split0 argsTmp none [] wEmptyBench).1.err =
        some PyErr.fileNotFoundError) ∧
    ∀ e : Int,
      processConfig split0 argsTmp none [] { wEmptyBench with compileExit := e } =
        processConfig split0 argsTmp none [] wEmptyBench :=
  empty_bench_enumeration split0 argsTmp none [] wEmptyBench "op0"
    "compile_command_0.txt" (by decide) (by decide) (by decide)

/-- C1: evaluation of the code at the failing input.  With no global
`--starter-td-spec`, a configuration with two benchmark artifacts whose
first tuner invocation succeeds: the carried starter variable is updated
to the output spec (the dead store at line 113), yet the second invocation
receives no `--starter-td-spec` flag at all, because the guard at lines
98-102 tests `args.starter_td_spec` instead of the carried variable.  The
claimed chaining invariant therefore fails whenever no global starter was
supplied. -/
theorem starter_chain_broken_without_global_starter :
    (processConfig split0 argsCli none [] wGood).1.tunerCalls.length = 2 ∧
    ((processConfig split0 argsCli none [] wGood).1.tunerCalls.map
        (fun c => c.raised)) = [false, false] ∧
    (processConfig split0 argsCli none [] wGood).1.starterOut =
      some "out.mlir" ∧
    ∀ c ∈ (processConfig split0 argsCli none [] wGood).1.tunerCalls,
      "--starter-td-spec" ∉ c.argv := by
  decide

end BooTuner
